import Mathlib

/-!
Shallow embedding of the tiered topic cache of this repository
(src/backend/cache_layer/cache.py, src/backend/cache_layer/TopicState.py,
src/backend/config.py), used to check the natural-language specification
against the code.

Modelling conventions:
* Python floats are modelled as rationals (ℚ); all score arithmetic in the
  source uses small literals (0.7, 0.3, 0.2) and comparisons against integer
  thresholds that are far from any rounding boundary, so the ℚ model decides
  every comparison exactly as the float code does.
* The module-global `CACHE` ordered dict and the `TopicCacheManager` object
  are bundled into one explicit state record; every in-place mutation of a
  Python object stored in `CACHE` becomes a functional update of the map at
  the moment the mutation happens, so aliasing through the dict is preserved.
* `CACHE` holds heterogeneous values in the source: nodes built by the cache
  loader (`CacheNode`, with `state` and `level` attributes) and bare
  `TopicState` objects written by `insert`.  `CacheVal` is that sum.
* Python object identity on `CacheNode` (the default `==`, used by the loop
  in `_promote` that searches for the least-occurring node) is modelled by an
  `oid : Nat` field; fresh allocation hands out an oid larger than every oid
  already in the map.  A `TopicState` dataclass never compares equal to a
  `CacheNode` (its generated `__eq__` rejects the other class), which the
  model reflects by only matching `node` values.
* A raised-and-uncaught Python exception inside `_promote` is modelled by the
  `PromoteResult.exn` constructor carrying the state at the moment of the
  raise (side effects already performed persist); `lookup`'s bare `except:`
  turns it into the `-1` miss sentinel, modelled by `LookupResult.miss`.
-/

set_option linter.unusedVariables false

namespace RagCache

/-- Frozen dataclass `TopicKey` (TopicState.py lines 5-9): three string
fields, equality fieldwise. -/
structure TopicKey where
  topic_label : String
  modality_filter : String
  retrieval_policy : String
deriving DecidableEq

/-- Dataclass `TopicState` (TopicState.py lines 12-21).  `score` is annotated
`int` in the source; the timestamp and confidence floats are modelled as ℚ. -/
structure TopicState where
  key : TopicKey
  score : Int
  cached_chunk_ids : List Int
  access_count : Int
  last_access_ts : ℚ
  first_seen_ts : ℚ
  confidence : ℚ
deriving DecidableEq

/-- Class `CacheNode` (cache.py lines 28-31): `key`, `state`, `level`.
`oid` models Python object identity (`CacheNode` defines no `__eq__`, so
`==` on it is identity). -/
structure CacheNode where
  oid : Nat
  key : TopicKey
  state : TopicState
  level : Int
deriving DecidableEq

/-- A value stored in the global `CACHE` dict: either a `CacheNode` (as the
loader produces and as `lookup`/`_promote` expect) or a bare `TopicState`
(as `insert` writes). -/
inductive CacheVal where
  | node (n : CacheNode)
  | tstate (s : TopicState)
deriving DecidableEq

namespace Config

/-- config.py line 18. -/
def L1_CAPACITY : Int := 32
/-- config.py line 19. -/
def L2_CAPACITY : Int := 128
/-- config.py line 20. -/
def L3_CAPACITY : Int := 1024
/-- config.py line 21: the float 0.2. -/
def RECENCY_BOOST : ℚ := 1 / 5
/-- config.py line 22: the int 20, only ever compared against float scores. -/
def L1_THRESHOLD : ℚ := 20
/-- config.py line 23: the int 8. -/
def L2_THRESHOLD : ℚ := 8
/-- config.py line 24: the int 3. -/
def L3_THRESHOLD : ℚ := 3

end Config

/-- Python dict read `d[k]`: `some` value, or `none` when the key is absent
(a `KeyError` at the call site). -/
def dictGet (d : List (TopicKey × CacheVal)) (k : TopicKey) : Option CacheVal :=
  match d with
  | [] => none
  | (k₁, v) :: rest => if k₁ = k then some v else dictGet rest k

/-- Python ordered-dict write `d[k] = v`: overwrite in place when the key is
present (keeping its position), append otherwise. -/
def dictSet (d : List (TopicKey × CacheVal)) (k : TopicKey) (v : CacheVal) :
    List (TopicKey × CacheVal) :=
  match d with
  | [] => [(k, v)]
  | (k₁, v₁) :: rest => if k₁ = k then (k, v) :: rest else (k₁, v₁) :: dictSet rest k v

/-- The keys of the dict, in order. -/
def dictKeys (d : List (TopicKey × CacheVal)) : List TopicKey :=
  d.map Prod.fst

/-- The loop in `_promote` (cache.py lines 81-83 and 93-95):
`for key, value in CACHE.items(): if value == stub: curr = key` keeps the
LAST key whose value is the very object `stub` (identity, hence oid
comparison; a `TopicState` value never equals a `CacheNode`). -/
def findByIdentity (d : List (TopicKey × CacheVal)) (oid : Nat) : Option TopicKey :=
  match d with
  | [] => none
  | (k, v) :: rest =>
    match findByIdentity rest oid with
    | some k₁ => some k₁
    | none =>
      match v with
      | CacheVal.node n => if n.oid = oid then some k else none
      | CacheVal.tstate _ => none

/-- Largest oid of any node stored in the dict (0 when there is none); used
to model fresh allocation. -/
def maxOid (d : List (TopicKey × CacheVal)) : Nat :=
  d.foldr (fun kv acc =>
    match kv.2 with
    | CacheVal.node n => max n.oid acc
    | CacheVal.tstate _ => acc) 0

/-- `get_least_occuring_node` (cache.py lines 34-36): builds and returns a
fresh, uninitialised `CacheNode()` stub.  Its attributes are never read by
any code path; only its identity is used, so the model records a fresh oid
(passed by the caller to reflect fresh allocation) and arbitrary field
contents. -/
def get_least_occuring_node (cache : List (TopicKey × CacheVal)) (level : Int)
    (freshOid : Nat) : CacheNode :=
  { oid := freshOid
    key := { topic_label := String.mk [], modality_filter := String.mk [],
             retrieval_policy := String.mk [] }
    state := { key := { topic_label := String.mk [], modality_filter := String.mk [],
                        retrieval_policy := String.mk [] }
               score := 0, cached_chunk_ids := [], access_count := 0,
               last_access_ts := 0, first_seen_ts := 0, confidence := 0 }
    level := 0 }

/-- The manager object (cache.py lines 39-56) together with the module-global
`CACHE` ordered dict (cache.py line 24). -/
structure TopicCacheManager where
  recency_boost : ℚ
  l1_cache_count : Int
  l2_cache_count : Int
  l3_cache_count : Int
  l3_least_occurace_node : CacheNode
  l2_least_occurace_node : CacheNode
  l1_least_occurace_node : CacheNode
  CACHE : List (TopicKey × CacheVal)
deriving DecidableEq

/-- Result of `_promote`: normal return, or an exception escaping (the state
at the moment of the raise is carried along, since side effects already
performed persist). -/
inductive PromoteResult where
  | ok (σ : TopicCacheManager)
  | exn (σ : TopicCacheManager)
deriving DecidableEq

/-- The state a `_promote` call left behind, whether it returned or raised. -/
def PromoteResult.state : PromoteResult → TopicCacheManager
  | PromoteResult.ok σ => σ
  | PromoteResult.exn σ => σ

/-- `TopicCacheManager._promote` (cache.py lines 58-100).  Reads
`CACHE[topic_key]`, increments its `level` in place, then walks the four
sequential `if ... return` branches.  In the two full-tier branches the
search for the least-occurring node compares every dict value against the
uninitialised stub held in the manager field; when nothing matches, `curr`
stays `None` and `CACHE[None]` raises `KeyError`. -/
def TopicCacheManager._promote (σ : TopicCacheManager) (topic_key : TopicKey)
    (score : ℚ) : PromoteResult :=
  match dictGet σ.CACHE topic_key with
  | none => PromoteResult.exn σ
  | some (CacheVal.tstate _) => PromoteResult.exn σ
  | some (CacheVal.node n) =>
    let n₁ : CacheNode := { n with level := n.level + 1 }
    let σ₁ : TopicCacheManager := { σ with CACHE := dictSet σ.CACHE topic_key (CacheVal.node n₁) }
    if score > Config.L2_THRESHOLD ∧ σ₁.l2_cache_count < Config.L2_CAPACITY then
      PromoteResult.ok { σ₁ with
        l2_cache_count := σ₁.l2_cache_count + 1
        l3_cache_count := σ₁.l3_cache_count - 1
        CACHE := dictSet σ₁.CACHE topic_key (CacheVal.node n₁) }
    else if score > Config.L1_THRESHOLD ∧ σ₁.l1_cache_count < Config.L1_CAPACITY then
      PromoteResult.ok { σ₁ with
        l1_cache_count := σ₁.l1_cache_count + 1
        l2_cache_count := σ₁.l2_cache_count - 1
        CACHE := dictSet σ₁.CACHE topic_key (CacheVal.node n₁) }
    else if score > Config.L2_THRESHOLD then
      match findByIdentity σ₁.CACHE σ₁.l2_least_occurace_node.oid with
      | none => PromoteResult.exn σ₁
      | some k₁ =>
        match dictGet σ₁.CACHE k₁ with
        | some (CacheVal.node m) =>
          let σ₂ : TopicCacheManager :=
            { σ₁ with CACHE := dictSet σ₁.CACHE k₁ (CacheVal.node { m with level := m.level - 1 }) }
          PromoteResult.ok { σ₂ with
            l2_cache_count := σ₂.l2_cache_count - 1
            CACHE := dictSet σ₂.CACHE topic_key (CacheVal.node n₁) }
        | _ => PromoteResult.exn σ₁
    else if score > Config.L1_THRESHOLD then
      match findByIdentity σ₁.CACHE σ₁.l1_least_occurace_node.oid with
      | none => PromoteResult.exn σ₁
      | some k₁ =>
        match dictGet σ₁.CACHE k₁ with
        | some (CacheVal.node m) =>
          let σ₂ : TopicCacheManager :=
            { σ₁ with CACHE := dictSet σ₁.CACHE k₁ (CacheVal.node { m with level := m.level - 1 }) }
          PromoteResult.ok { σ₂ with
            l1_cache_count := σ₂.l1_cache_count - 1
            CACHE := dictSet σ₂.CACHE topic_key (CacheVal.node n₁) }
        | _ => PromoteResult.exn σ₁
    else PromoteResult.ok σ₁

/-- `TopicCacheManager._demote` (cache.py lines 102-103): the body is `pass`;
the state is returned unchanged. -/
def TopicCacheManager._demote (σ : TopicCacheManager) (node : CacheNode) :
    TopicCacheManager := σ

/-- `TopicCacheManager._remove_topic` (cache.py lines 105-106): the body is
`pass`; the state is returned unchanged. -/
def TopicCacheManager._remove_topic (σ : TopicCacheManager) (node : CacheNode) :
    TopicCacheManager := σ

/-- Outcome of `lookup` (cache.py lines 108-130): on any exception the bare
`except:` returns the int `-1` (`miss`); otherwise the (possibly mutated)
node object is returned (`hit`). -/
inductive LookupResult where
  | miss
  | hit (n : CacheNode)
deriving DecidableEq

/-- `TopicCacheManager.lookup` (cache.py lines 108-130).  Reads
`CACHE[key]` (absent key: `KeyError`, caught, `-1`); accesses
`node.state.access_count` (an `AttributeError` when the stored value is a
bare `TopicState`, caught, `-1`) and increments it in place; when
`node.level != 0` computes the score from the incremented count and runs the
three independent `if` blocks, re-reading `node.level` after a `_promote`
incremented it in place.  An exception escaping `_promote` is caught by the
same handler with all side effects so far kept. -/
def TopicCacheManager.lookup (σ : TopicCacheManager) (key : TopicKey) :
    LookupResult × TopicCacheManager :=
  match dictGet σ.CACHE key with
  | none => (LookupResult.miss, σ)
  | some (CacheVal.tstate _) => (LookupResult.miss, σ)
  | some (CacheVal.node n) =>
    let n₁ : CacheNode :=
      { n with state := { n.state with access_count := n.state.access_count + 1 } }
    let σ₁ : TopicCacheManager := { σ with CACHE := dictSet σ.CACHE key (CacheVal.node n₁) }
    if n₁.level ≠ 0 then
      let score : ℚ := (n₁.state.access_count : ℚ) * (7 / 10) + σ₁.recency_boost * (3 / 10)
      if (n₁.level = 2 ∧ score > Config.L1_THRESHOLD) ∨
          (n₁.level = 3 ∧ score > Config.L2_THRESHOLD) then
        match σ₁._promote key score with
        | PromoteResult.exn σₑ => (LookupResult.miss, σₑ)
        | PromoteResult.ok σ₂ =>
          let n₂ : CacheNode := { n₁ with level := n₁.level + 1 }
          let σ₃ : TopicCacheManager :=
            if n₂.level = 2 ∧ score < Config.L2_THRESHOLD then σ₂._demote n₂ else σ₂
          let σ₄ : TopicCacheManager :=
            if n₂.level = 3 ∧ score < Config.L3_THRESHOLD ∧
                σ₃.l3_cache_count = Config.L3_CAPACITY then σ₃._remove_topic n₂ else σ₃
          (LookupResult.hit n₂, σ₄)
      else
        let σ₃ : TopicCacheManager :=
          if n₁.level = 2 ∧ score < Config.L2_THRESHOLD then σ₁._demote n₁ else σ₁
        let σ₄ : TopicCacheManager :=
          if n₁.level = 3 ∧ score < Config.L3_THRESHOLD ∧
              σ₃.l3_cache_count = Config.L3_CAPACITY then σ₃._remove_topic n₁ else σ₃
        (LookupResult.hit n₁, σ₄)
    else (LookupResult.hit n₁, σ₁)

/-- `TopicCacheManager.insert` (cache.py lines 132-138).  When the L3 counter
sits at capacity it first calls the no-op `_remove_topic` on the stub node;
either way it stores the bare `TopicState` as the dict value and touches no
counter. -/
def TopicCacheManager.insert (σ : TopicCacheManager) (key : TopicKey)
    (state : TopicState) : TopicCacheManager :=
  if σ.l3_cache_count = Config.L3_CAPACITY then
    let σ₁ : TopicCacheManager := σ._remove_topic σ.l3_least_occurace_node
    { σ₁ with CACHE := dictSet σ₁.CACHE key (CacheVal.tstate state) }
  else
    { σ with CACHE := dictSet σ.CACHE key (CacheVal.tstate state) }

/-- `TopicCacheManager.__init__` (cache.py lines 48-56).  Modelled from the
spec: the module `load_cache` (the PersistenceGateway adapter) is not in the
source tree; per the spec, `load()` yields the full snapshot used to rebuild
`CACHE` and `get_cache_count()` yields the three per-tier occupancy counts,
so both are taken here as parameters.  The three `get_least_occuring_node`
calls allocate fresh stub objects, modelled by oids strictly larger than any
oid in the snapshot, in allocation order L3, L2, L1. -/
def TopicCacheManager.mk_init (snapshot : List (TopicKey × CacheVal))
    (c1 c2 c3 : Int) : TopicCacheManager :=
  { recency_boost := Config.RECENCY_BOOST
    l1_cache_count := c1
    l2_cache_count := c2
    l3_cache_count := c3
    l3_least_occurace_node := get_least_occuring_node snapshot 3 (maxOid snapshot + 1)
    l2_least_occurace_node := get_least_occuring_node snapshot 2 (maxOid snapshot + 2)
    l1_least_occurace_node := get_least_occuring_node snapshot 1 (maxOid snapshot + 3)
    CACHE := snapshot }

/-- Number of entries whose value is a node residing at `level` (the count of
entries the spec assigns to the tier with that numeric level). -/
def levelCount (d : List (TopicKey × CacheVal)) (level : Int) : Nat :=
  (d.filter (fun kv =>
    match kv.2 with
    | CacheVal.node n => n.level = level
    | CacheVal.tstate _ => false)).length

/-- One externally visible cache operation. -/
inductive CacheOp where
  | lookupOp (k : TopicKey)
  | insertOp (k : TopicKey) (s : TopicState)

/-- Run one operation for its state effect. -/
def applyOp (σ : TopicCacheManager) : CacheOp → TopicCacheManager
  | CacheOp.lookupOp k => (σ.lookup k).2
  | CacheOp.insertOp k s => σ.insert k s

/-- Run a sequence of operations. -/
def applyOps (σ : TopicCacheManager) (ops : List CacheOp) : TopicCacheManager :=
  ops.foldl applyOp σ

/-- Fold of `insert` over a list of key/state pairs, for the bulk-insertion
scenarios of the spec. -/
def insertSeq (σ : TopicCacheManager) (l : List (TopicKey × TopicState)) :
    TopicCacheManager :=
  l.foldl (fun σ₁ p => σ₁.insert p.1 p.2) σ

/-- A topic key with a label of `i` letters, giving an injective supply of
distinct keys for the bulk-insertion scenarios. -/
def natKey (i : Nat) : TopicKey :=
  { topic_label := String.mk (List.replicate i 'a')
    modality_filter := String.mk []
    retrieval_policy := String.mk [] }

/-- A fixed payload used by the bulk-insertion scenarios. -/
def seedState : TopicState :=
  { key := natKey 0, score := 0, cached_chunk_ids := [], access_count := 0,
    last_access_ts := 0, first_seen_ts := 0, confidence := 0 }

/-- `n` distinct key/state pairs. -/
def seedList (n : Nat) : List (TopicKey × TopicState) :=
  (List.range n).map (fun i => (natKey i, seedState))

/-! ### Concrete scenario fixtures -/

/-- A concrete topic key (empty label). -/
def kA : TopicKey := natKey 0

/-- A second, distinct concrete topic key (one-letter label). -/
def kB : TopicKey := natKey 1

/-- A concrete payload with recognizable field values. -/
def s0 : TopicState :=
  { key := kA, score := 2, cached_chunk_ids := [5], access_count := 4,
    last_access_ts := 100, first_seen_ts := 50, confidence := 1 }

/-- Scenario for C1: one Cold (level 3) node whose next lookup promotes it
(access count 20, so the new score 21 * 0.7 + 0.2 * 0.3 = 14.76 exceeds the
Warm threshold 8) while the Warm tier has free space. -/
def c1State : TopicCacheManager :=
  TopicCacheManager.mk_init
    [(kA, CacheVal.node { oid := 0, key := kA, state := { s0 with access_count := 20 }, level := 3 })]
    0 0 1

/-- Scenario for C3: one Warm (level 2) node whose next lookup scores
1 * 0.7 + 0.2 * 0.3 = 0.76, below the Warm threshold 8, so the demotion rule
fires. -/
def c3State : TopicCacheManager :=
  TopicCacheManager.mk_init
    [(kA, CacheVal.node { oid := 0, key := kA, state := { s0 with access_count := 0 }, level := 2 })]
    0 1 0

/-- Scenario for C4: a Cold (level 3) node about to cross the Warm threshold
(score 12 * 0.7 + 0.06 = 8.46 > 8 but below the Hot threshold 20) while the
Warm tier is exactly at capacity (counter 128) and holds a least-valuable
candidate `kB`. -/
def c4State : TopicCacheManager :=
  TopicCacheManager.mk_init
    [(kA, CacheVal.node { oid := 0, key := kA, state := { s0 with access_count := 11 }, level := 3 }),
     (kB, CacheVal.node { oid := 1, key := kB, state := s0, level := 2 })]
    0 128 1

/-- Scenario for C5: one Cold (level 3) node whose next lookup scores
5 * 0.7 + 0.06 = 3.56, between every pair of thresholds, so no transition rule
fires and the lookup is a plain hit. -/
def c5State : TopicCacheManager :=
  TopicCacheManager.mk_init [(kA, CacheVal.node { oid := 0, key := kA, state := s0, level := 3 })]
    0 0 1

/-- The empty cache: what `__init__` builds when the loader hands back an
empty snapshot and zero counts. -/
def emptyState : TopicCacheManager := TopicCacheManager.mk_init [] 0 0 0

/-- Scenario for C7: the key `kA` is already present, held as a loader-built
node at level 0 with access count 4. -/
def c7State : TopicCacheManager :=
  TopicCacheManager.mk_init [(kA, CacheVal.node { oid := 0, key := kA, state := s0, level := 0 })]
    0 0 1

/-! ### Dictionary lemmas -/

theorem dictGet_dictSet_self (d : List (TopicKey × CacheVal)) (k : TopicKey)
    (v : CacheVal) : dictGet (dictSet d k v) k = some v := by
  induction d with
  | nil => simp [dictGet, dictSet]
  | cons hd tl ih =>
    obtain ⟨k₁, v₁⟩ := hd
    by_cases h : k₁ = k
    · simp [dictGet, dictSet, h]
    · simp [dictGet, dictSet, h, ih]

theorem dictSet_dictSet_self (d : List (TopicKey × CacheVal)) (k : TopicKey)
    (v₁ v₂ : CacheVal) : dictSet (dictSet d k v₁) k v₂ = dictSet d k v₂ := by
  induction d with
  | nil => simp [dictSet]
  | cons hd tl ih =>
    obtain ⟨k₀, v₀⟩ := hd
    by_cases h : k₀ = k
    · simp [dictSet, h]
    · simp [dictSet, h, ih]

theorem dictKeys_cons (k₁ : TopicKey) (v₁ : CacheVal)
    (tl : List (TopicKey × CacheVal)) :
    dictKeys ((k₁, v₁) :: tl) = k₁ :: dictKeys tl := rfl

theorem dictSet_cons_ne (k₁ : TopicKey) (v₁ : CacheVal)
    (tl : List (TopicKey × CacheVal)) (k : TopicKey) (v : CacheVal)
    (h : k₁ ≠ k) :
    dictSet ((k₁, v₁) :: tl) k v = (k₁, v₁) :: dictSet tl k v := by
  simp [dictSet, h]

theorem dictKeys_dictSet (d : List (TopicKey × CacheVal)) (k : TopicKey)
    (v : CacheVal) :
    dictKeys (dictSet d k v) =
      if k ∈ dictKeys d then dictKeys d else dictKeys d ++ [k] := by
  induction d with
  | nil => simp [dictKeys, dictSet]
  | cons hd tl ih =>
    obtain ⟨k₁, v₁⟩ := hd
    by_cases h : k₁ = k
    · subst h
      simp [dictKeys, dictSet]
    · rw [dictSet_cons_ne k₁ v₁ tl k v h, dictKeys_cons, dictKeys_cons, ih]
      by_cases hm : k ∈ dictKeys tl
      · rw [if_pos hm, if_pos (List.mem_cons_of_mem _ hm)]
      · rw [if_neg hm, if_neg (fun hc => by
          rcases List.mem_cons.mp hc with h₁ | h₂
          · exact h h₁.symm
          · exact hm h₂)]
        rfl

theorem mem_dictKeys_dictSet {d : List (TopicKey × CacheVal)} {k₁ : TopicKey}
    (k : TopicKey) (v : CacheVal) (h : k₁ ∈ dictKeys d) :
    k₁ ∈ dictKeys (dictSet d k v) := by
  rw [dictKeys_dictSet]
  split
  · exact h
  · exact List.mem_append_left _ h

theorem dictGet_eq_none_iff (d : List (TopicKey × CacheVal)) (k : TopicKey) :
    dictGet d k = none ↔ k ∉ dictKeys d := by
  induction d with
  | nil => simp [dictGet, dictKeys]
  | cons hd tl ih =>
    obtain ⟨k₁, v₁⟩ := hd
    by_cases h : k₁ = k
    · subst h
      simp [dictGet, dictKeys]
    · simp [dictGet, dictKeys, h, Ne.symm h, ih]

theorem length_dictSet (d : List (TopicKey × CacheVal)) (k : TopicKey)
    (v : CacheVal) :
    (dictSet d k v).length =
      if k ∈ dictKeys d then d.length else d.length + 1 := by
  induction d with
  | nil => simp [dictSet, dictKeys]
  | cons hd tl ih =>
    obtain ⟨k₁, v₁⟩ := hd
    by_cases h : k₁ = k
    · subst h
      simp [dictSet, dictKeys]
    · rw [dictSet_cons_ne k₁ v₁ tl k v h, List.length_cons, List.length_cons, ih,
        dictKeys_cons]
      by_cases hm : k ∈ dictKeys tl
      · rw [if_pos hm, if_pos (List.mem_cons_of_mem _ hm)]
      · rw [if_neg hm, if_neg (fun hc => by
          rcases List.mem_cons.mp hc with h₁ | h₂
          · exact h h₁.symm
          · exact hm h₂)]

/-! ### Normal forms of the operations -/

/-- `insert` always just writes the bare `TopicState` into the dict: the two
branches of cache.py lines 134-138 differ only in the no-op `_remove_topic`
call. -/
theorem insert_eq (σ : TopicCacheManager) (k : TopicKey) (s : TopicState) :
    σ.insert k s = { σ with CACHE := dictSet σ.CACHE k (CacheVal.tstate s) } := by
  unfold TopicCacheManager.insert TopicCacheManager._remove_topic
  split <;> rfl

/-! ### Key preservation: no operation ever removes a dict key -/

theorem promote_state_mem (σ : TopicCacheManager) (k : TopicKey) (score : ℚ)
    {k₁ : TopicKey} (h : k₁ ∈ dictKeys σ.CACHE) :
    k₁ ∈ dictKeys ((σ._promote k score).state).CACHE := by
  unfold TopicCacheManager._promote
  split
  · exact h
  · exact h
  · simp only []
    repeat' split
    all_goals (dsimp only [PromoteResult.state]; solve_by_elim [mem_dictKeys_dictSet])

theorem lookup_state_mem (σ : TopicCacheManager) (k : TopicKey)
    {k₁ : TopicKey} (h : k₁ ∈ dictKeys σ.CACHE) :
    k₁ ∈ dictKeys (σ.lookup k).2.CACHE := by
  have hgen : ∀ (r : PromoteResult) (σ₀ : TopicCacheManager) (kk : TopicKey) (sc : ℚ),
      σ₀._promote kk sc = r → k₁ ∈ dictKeys σ₀.CACHE →
      k₁ ∈ dictKeys (r.state).CACHE := by
    intro r σ₀ kk sc hr hm
    rw [← hr]
    exact promote_state_mem σ₀ kk sc hm
  unfold TopicCacheManager.lookup
  split
  · exact h
  · exact h
  · simp only [TopicCacheManager._demote, TopicCacheManager._remove_topic, ite_self]
    split
    · split
      · split
        next σₑ heq => exact hgen _ _ _ _ heq (mem_dictKeys_dictSet _ _ h)
        next σ₂ heq => exact hgen _ _ _ _ heq (mem_dictKeys_dictSet _ _ h)
      · exact mem_dictKeys_dictSet _ _ h
    · exact mem_dictKeys_dictSet _ _ h

theorem insert_mem (σ : TopicCacheManager) (k : TopicKey) (s : TopicState)
    {k₁ : TopicKey} (h : k₁ ∈ dictKeys σ.CACHE) :
    k₁ ∈ dictKeys (σ.insert k s).CACHE := by
  rw [insert_eq]
  exact mem_dictKeys_dictSet _ _ h

theorem applyOp_mem (σ : TopicCacheManager) (op : CacheOp) {k₁ : TopicKey}
    (h : k₁ ∈ dictKeys σ.CACHE) : k₁ ∈ dictKeys (applyOp σ op).CACHE := by
  cases op with
  | lookupOp k => exact lookup_state_mem σ k h
  | insertOp k s => exact insert_mem σ k s h

theorem applyOps_mem (ops : List CacheOp) :
    ∀ σ : TopicCacheManager, ∀ {k₁ : TopicKey}, k₁ ∈ dictKeys σ.CACHE →
      k₁ ∈ dictKeys (applyOps σ ops).CACHE := by
  induction ops with
  | nil => intro σ k₁ h; exact h
  | cons op tl ih =>
    intro σ k₁ h
    exact ih (applyOp σ op) (applyOp_mem σ op h)

/-! ### Bulk insertion -/

theorem insertSeq_cons (σ : TopicCacheManager) (p : TopicKey × TopicState)
    (l : List (TopicKey × TopicState)) :
    insertSeq σ (p :: l) = insertSeq (σ.insert p.1 p.2) l := rfl

theorem insertSeq_length (l : List (TopicKey × TopicState)) :
    ∀ σ : TopicCacheManager, (l.map Prod.fst).Nodup →
      (∀ p ∈ l, p.1 ∉ dictKeys σ.CACHE) →
      (insertSeq σ l).CACHE.length = σ.CACHE.length + l.length := by
  induction l with
  | nil => intro σ _ _; rfl
  | cons p tl ih =>
    intro σ hnd hdisj
    have hp : p.1 ∉ dictKeys σ.CACHE := hdisj p (List.mem_cons_self _ _)
    have hkeys : dictKeys (σ.insert p.1 p.2).CACHE = dictKeys σ.CACHE ++ [p.1] := by
      rw [insert_eq]
      dsimp only
      rw [dictKeys_dictSet, if_neg hp]
    have hlen : (σ.insert p.1 p.2).CACHE.length = σ.CACHE.length + 1 := by
      rw [insert_eq]
      dsimp only
      rw [length_dictSet, if_neg hp]
    have hnd₂ : (tl.map Prod.fst).Nodup := (List.nodup_cons.mp (by simpa using hnd)).2
    have hnp : p.1 ∉ tl.map Prod.fst := (List.nodup_cons.mp (by simpa using hnd)).1
    have hdisj₂ : ∀ q ∈ tl, q.1 ∉ dictKeys (σ.insert p.1 p.2).CACHE := by
      intro q hq
      rw [hkeys]
      intro hc
      rcases List.mem_append.mp hc with h₁ | h₂
      · exact hdisj q (List.mem_cons_of_mem _ hq) h₁
      · have h₃ : q.1 = p.1 := by simpa using h₂
        exact hnp (h₃ ▸ List.mem_map_of_mem Prod.fst hq)
    rw [insertSeq_cons, ih (σ.insert p.1 p.2) hnd₂ hdisj₂, hlen, List.length_cons]
    omega

theorem natKey_injective : Function.Injective natKey := by
  intro i j h
  have h₁ : (natKey i).topic_label.data.length = (natKey j).topic_label.data.length := by
    rw [h]
  simpa [natKey] using h₁

theorem seedList_keys (n : Nat) :
    (seedList n).map Prod.fst = (List.range n).map natKey := by
  rw [seedList, List.map_map]
  rfl

theorem seedList_keys_nodup (n : Nat) : ((seedList n).map Prod.fst).Nodup := by
  rw [seedList_keys]
  exact (List.nodup_range n).map natKey_injective

/-! ### Claim theorems -/

/-- C1: the spec requires that after every operation each tier counter equals
the number of entries whose tier it counts.  The code violates this: on
`c1State` (one Cold entry whose lookup promotes it while Warm has space) the
lookup leaves the Warm counter at 1 while no entry at all resides at level 2,
because `_promote` moved the node from level 3 to level 4. -/
theorem c1_occupancy_invariant_violated :
    ((c1State.lookup kA).2.l2_cache_count = 1) ∧
      (levelCount (c1State.lookup kA).2.CACHE 2 = 0) := by
  norm_num [c1State, kA, s0, natKey, TopicCacheManager.lookup, TopicCacheManager.mk_init,
    TopicCacheManager._promote, TopicCacheManager._demote, TopicCacheManager._remove_topic,
    dictGet, dictSet, findByIdentity, maxOid, get_least_occuring_node, levelCount,
    Config.L1_THRESHOLD, Config.L2_THRESHOLD, Config.L3_THRESHOLD, Config.L1_CAPACITY,
    Config.L2_CAPACITY, Config.L3_CAPACITY, Config.RECENCY_BOOST, List.filter]

/-- C2: the spec requires that inserting N distinct keys into a cache of Cold
capacity C < N causes exactly N - C evictions.  The code never evicts:
after inserting 1025 distinct keys into the freshly initialised empty cache
(Cold capacity 1024) all 1025 entries are still in the map, where the spec
demands one eviction (leaving at most 1024). -/
theorem c2_bulk_inserts_evict_nothing :
    (insertSeq emptyState (seedList 1025)).CACHE.length = 1025 ∧
      Config.L3_CAPACITY = 1024 := by
  refine ⟨?_, rfl⟩
  have h := insertSeq_length (seedList 1025) emptyState (seedList_keys_nodup 1025)
    (by intro p hp; simp [emptyState, TopicCacheManager.mk_init, dictKeys])
  have hempty : emptyState.CACHE = [] := rfl
  have hslen : (seedList 1025).length = 1025 := by
    rw [seedList, List.length_map, List.length_range]
  rw [h, hempty, hslen, List.length_nil]

/-- C3: the spec requires a Warm entry with score below the Warm threshold to
be demoted to Cold by lookup.  The code checks exactly that condition but
calls the stub `_demote`: on `c3State` (one Warm entry, new score 0.76 < 8)
the entry stays at level 2 with only its access count incremented, and both
tier counters are untouched. -/
theorem c3_demotion_rule_is_noop :
    (c3State.lookup kA).1 =
        LookupResult.hit
          { oid := 0, key := kA, state := { s0 with access_count := 1 }, level := 2 } ∧
      (c3State.lookup kA).2.CACHE =
        [(kA, CacheVal.node
          { oid := 0, key := kA, state := { s0 with access_count := 1 }, level := 2 })] ∧
      (c3State.lookup kA).2.l2_cache_count = 1 ∧
      (c3State.lookup kA).2.l3_cache_count = 0 := by
  norm_num [c3State, kA, s0, natKey, TopicCacheManager.lookup, TopicCacheManager.mk_init,
    TopicCacheManager._promote, TopicCacheManager._demote, TopicCacheManager._remove_topic,
    dictGet, dictSet, findByIdentity, maxOid, get_least_occuring_node,
    Config.L1_THRESHOLD, Config.L2_THRESHOLD, Config.L3_THRESHOLD, Config.L1_CAPACITY,
    Config.L2_CAPACITY, Config.L3_CAPACITY, Config.RECENCY_BOOST]

/-- C4: the spec requires promotion into a full tier to first demote that
tier's least-valuable entry one tier down and then admit the promoted entry.
The code instead raises: on `c4State` (Cold entry crossing the Warm
threshold while Warm is at capacity) the identity search for the
least-valuable node finds nothing (the manager holds an uninitialised stub),
`CACHE[None]` raises `KeyError`, the bare `except:` converts the lookup of
this present key into the miss sentinel, and no entry moves anywhere except
the already-performed in-place increment that left the looked-up node at
level 4 (not an adjacent tier, and not Warm). -/
theorem c4_full_tier_promotion_raises :
    (c4State.lookup kA).1 = LookupResult.miss ∧
      (c4State.lookup kA).2.CACHE =
        [(kA, CacheVal.node
          { oid := 0, key := kA, state := { s0 with access_count := 12 }, level := 4 }),
         (kB, CacheVal.node { oid := 1, key := kB, state := s0, level := 2 })] ∧
      (c4State.lookup kA).2.l2_cache_count = 128 ∧
      (c4State.lookup kA).2.l3_cache_count = 1 := by
  norm_num [c4State, kA, kB, s0, natKey, TopicCacheManager.lookup, TopicCacheManager.mk_init,
    TopicCacheManager._promote, TopicCacheManager._demote, TopicCacheManager._remove_topic,
    dictGet, dictSet, findByIdentity, maxOid, get_least_occuring_node,
    Config.L1_THRESHOLD, Config.L2_THRESHOLD, Config.L3_THRESHOLD, Config.L1_CAPACITY,
    Config.L2_CAPACITY, Config.L3_CAPACITY, Config.RECENCY_BOOST, List.replicate]

/-- C5: the spec requires a lookup hit to increment the access count, set
`last_access_ts` to the lookup time and store the recomputed score.  The
code only increments the count: on `c5State` the hit returns the node with
`access_count` 5 but `last_access_ts` and `score` still holding their old
values (the code never reads a clock and never writes the score field), and
the recomputed score 5 * 0.7 + 0.2 * 0.3 differs from the stored one. -/
theorem c5_lookup_ignores_timestamp_and_stored_score :
    (c5State.lookup kA).1 =
        LookupResult.hit
          { oid := 0, key := kA, state := { s0 with access_count := 5 }, level := 3 } ∧
      ((5 : ℚ) * (7 / 10) + Config.RECENCY_BOOST * (3 / 10) ≠ (s0.score : ℚ)) := by
  constructor
  · norm_num [c5State, kA, s0, natKey, TopicCacheManager.lookup, TopicCacheManager.mk_init,
      TopicCacheManager._promote, TopicCacheManager._demote, TopicCacheManager._remove_topic,
      dictGet, dictSet, findByIdentity, maxOid, get_least_occuring_node,
      Config.L1_THRESHOLD, Config.L2_THRESHOLD, Config.L3_THRESHOLD, Config.L1_CAPACITY,
      Config.L2_CAPACITY, Config.L3_CAPACITY, Config.RECENCY_BOOST]
  · norm_num [s0, Config.RECENCY_BOOST]

/-- C6: lookup of an absent key does return the miss sentinel without any
mutation, but the sentinel is NOT reserved for genuine absence: looking up a
key that IS present (stored by `insert` as a bare `TopicState`) produces the
very same sentinel, because the `AttributeError` on `node.state` is swallowed
by the bare `except:`.  So misses are not distinguishable from internal
errors, contrary to the claim. -/
theorem c6_internal_error_collapses_to_miss :
    emptyState.lookup kA = (LookupResult.miss, emptyState) ∧
      dictGet (emptyState.insert kA s0).CACHE kA = some (CacheVal.tstate s0) ∧
      ((emptyState.insert kA s0).lookup kA).1 = LookupResult.miss := by
  refine ⟨?_, ?_, ?_⟩
  · simp [emptyState, TopicCacheManager.mk_init, TopicCacheManager.lookup, dictGet]
  · rw [insert_eq]
    exact dictGet_dictSet_self _ _ _
  · rw [insert_eq]
    simp [TopicCacheManager.lookup, dictGet_dictSet_self]

/-- C7 counterexample: inserting an already-present key is not a lookup hit.
On `c7State` (the key is present as a loader-built node) `insert` overwrites
the stored node with the bare new state, while `lookup` keeps the node and
increments its access count, so the two resulting states differ. -/
theorem c7_insert_on_present_key_not_lookup_hit :
    c7State.insert kA s0 ≠ (c7State.lookup kA).2 := by
  intro hc
  have h₁ : dictGet (c7State.insert kA s0).CACHE kA =
      dictGet (c7State.lookup kA).2.CACHE kA := by rw [hc]
  rw [insert_eq, dictGet_dictSet_self] at h₁
  simp [c7State, kA, s0, natKey, TopicCacheManager.lookup, TopicCacheManager.mk_init,
    dictGet, dictSet, get_least_occuring_node, maxOid] at h₁

/-- C7 amended: calling `insert` twice with the same key produces the same
state as calling it once followed by one `lookup` (both leave the state
after the first insert unchanged), and `insert` on an already-present key
creates no duplicate entry (the key occurs exactly once in the map
afterwards); but it overwrites the stored value rather than behaving as a
lookup hit (see the counterexample). -/
theorem c7_amended_insert_idempotent (σ : TopicCacheManager) (k : TopicKey)
    (s : TopicState) (h : (dictKeys σ.CACHE).Nodup) :
    (σ.insert k s).insert k s = ((σ.insert k s).lookup k).2 ∧
      (dictKeys (σ.insert k s).CACHE).count k = 1 := by
  constructor
  · simp [insert_eq, TopicCacheManager.lookup, dictGet_dictSet_self, dictSet_dictSet_self]
  · rw [insert_eq]
    dsimp only
    rw [dictKeys_dictSet]
    by_cases hm : k ∈ dictKeys σ.CACHE
    · rw [if_pos hm]
      exact List.count_eq_one_of_mem h hm
    · rw [if_neg hm]
      simp [List.count_append, List.count_eq_zero.mpr hm]

/-- Witness for the amended C7 at a concrete input. -/
theorem c7_amended_insert_idempotent_witness :
    (emptyState.insert kA s0).insert kA s0 = ((emptyState.insert kA s0).lookup kA).2 ∧
      (dictKeys (emptyState.insert kA s0).CACHE).count kA = 1 :=
  c7_amended_insert_idempotent emptyState kA s0
    (by simp [emptyState, TopicCacheManager.mk_init, dictKeys])

/-- C8: for a key not already present, insert followed immediately by lookup
returns the miss sentinel -1 (modelled by `LookupResult.miss`) instead of the
stored state, leaving the cache unchanged: `insert` stores the bare
`TopicState`, whose missing `state` attribute raises inside lookup and is
swallowed by the bare `except:`. -/
theorem c8_insert_then_lookup_misses (σ : TopicCacheManager) (k : TopicKey)
    (s : TopicState) (h : dictGet σ.CACHE k = none) :
    (σ.insert k s).lookup k = (LookupResult.miss, σ.insert k s) := by
  rw [insert_eq]
  simp [TopicCacheManager.lookup, dictGet_dictSet_self]

/-- Witness for C8 at a concrete input. -/
theorem c8_insert_then_lookup_misses_witness :
    dictGet emptyState.CACHE kA = none ∧
      (emptyState.insert kA s0).lookup kA = (LookupResult.miss, emptyState.insert kA s0) :=
  ⟨rfl, c8_insert_then_lookup_misses emptyState kA s0 rfl⟩

/-- C9: `_demote` and `_remove_topic` leave the manager state (map and all
counters) unchanged, and no sequence of lookup and insert operations ever
removes a key from the cache map: every key present before is present
after. -/
theorem c9_keys_never_removed :
    (∀ (σ : TopicCacheManager) (n : CacheNode),
        σ._demote n = σ ∧ σ._remove_topic n = σ) ∧
      ∀ (ops : List CacheOp) (σ : TopicCacheManager) (k : TopicKey),
        k ∈ dictKeys σ.CACHE → k ∈ dictKeys (applyOps σ ops).CACHE := by
  constructor
  · intro σ n
    exact ⟨rfl, rfl⟩
  · intro ops σ k h
    exact applyOps_mem ops σ h

/-- Witness for C9 at a concrete input: a lookup (which here promotes) and an
insert keep the original key present. -/
theorem c9_keys_never_removed_witness :
    kA ∈ dictKeys (applyOps c1State [CacheOp.lookupOp kA, CacheOp.insertOp kB s0]).CACHE :=
  c9_keys_never_removed.2 [CacheOp.lookupOp kA, CacheOp.insertOp kB s0] c1State kA
    (by simp [c1State, TopicCacheManager.mk_init, dictKeys])

/-- C10: `insert` changes neither the three tier occupancy counters nor the
three least-valuable-node references; it only writes the cache map. -/
theorem c10_insert_preserves_counters (σ : TopicCacheManager) (k : TopicKey)
    (s : TopicState) :
    (σ.insert k s).l1_cache_count = σ.l1_cache_count ∧
      (σ.insert k s).l2_cache_count = σ.l2_cache_count ∧
      (σ.insert k s).l3_cache_count = σ.l3_cache_count ∧
      (σ.insert k s).l1_least_occurace_node = σ.l1_least_occurace_node ∧
      (σ.insert k s).l2_least_occurace_node = σ.l2_least_occurace_node ∧
      (σ.insert k s).l3_least_occurace_node = σ.l3_least_occurace_node := by
  rw [insert_eq]
  exact ⟨rfl, rfl, rfl, rfl, rfl, rfl⟩

end RagCache
